import Mathlib

/-!
Verification of the Control-Surface MIDI input core: the bankable address
matchers (`src/MIDI_Inputs/MIDIInputElementMatchers.hpp`) and the MCU VU-meter
state machine and input elements (`src/MIDI_Inputs/MCU/NewVU.hpp`).

The C++ code is shallowly embedded: `uint8_t` values are `Nat` with explicit
`% 256` wherever the C++ arithmetic actually wraps, struct methods become
Lean functions, and in-place mutation becomes explicit state passing.
Types that live outside the two translated source files (the MIDI address
model, the bank object, the timer) are modelled from the specification, as
marked in their doc comments.
-/

namespace CS

/-- Modelled from the spec: the message-type tag of a raw channel message
(`MIDIMessageType` is declared outside the translated sources); only
`NoteOff` is distinguished by the matchers. -/
inductive MIDIMessageType
  | NoteOff
  | NoteOn
  | KeyPressure
  | ControlChange
  | ChannelPressure
deriving DecidableEq

/-- `BankType`: which address field varies across bank settings
(`CHANGE_ADDRESS`, `CHANGE_CHANNEL`, `CHANGE_CABLENB`). Modelled from the
spec (declared in `Banks/BankConfig.hpp`, outside the translated sources). -/
inductive BankType
  | ChangeAddress
  | ChangeChannel
  | ChangeCable
deriving DecidableEq

/-- Modelled from the spec: the bank object (`Banks/Bank.hpp` is outside the
translated sources). The core only reads `tracksPerBank` (the stride) and
`selection` (the externally-owned current bank setting). -/
structure Bank where
  tracksPerBank : Nat
  selection : Nat
deriving DecidableEq

/-- Modelled from the spec: `BaseBankConfig<BankSize>` bundles the bank
reference and the bank type; the compile-time `BankSize` template parameter
is carried as a field. -/
structure BaseBankConfig where
  bankSize : Nat
  bank : Bank
  type : BankType
deriving DecidableEq

/-- Modelled from the spec: a MIDI address `{number [0,127], channel [0,15],
cable [0,15]}` with a distinguished invalid sentinel (`valid = false`).
`MIDIAddress` is declared outside the translated sources. -/
structure MIDIAddress where
  valid : Bool
  address : Nat
  channel : Nat
  cable : Nat
deriving DecidableEq

def MIDIAddress.isValid (a : MIDIAddress) : Bool := a.valid

/-- Modelled from the spec: single-address matching is exact field
comparison, and matching against an invalid address fails closed. -/
def MIDIAddress.matchSingle (toMatch base : MIDIAddress) : Bool :=
  toMatch.valid && base.valid && toMatch.address == base.address &&
    toMatch.channel == base.channel && toMatch.cable == base.cable

/-- Modelled from the spec: range containment
(`base ≤ address < base + length`, same channel/cable), failing closed on
invalid addresses. -/
def MIDIAddress.matchAddressInRange (toMatch base : MIDIAddress)
    (length : Nat) : Bool :=
  toMatch.valid && base.valid && toMatch.channel == base.channel &&
    toMatch.cable == base.cable && decide (base.address ≤ toMatch.address) &&
    decide (toMatch.address < base.address + length)

/-- Modelled from the spec: the raw channel message record delivered by the
external transport (`ChannelMessageMatcher`). -/
structure ChannelMessageMatcher where
  type : MIDIMessageType
  data1 : Nat
  data2 : Nat
  channel : Nat
  cable : Nat
deriving DecidableEq

/-- Modelled from the spec: `m.getAddress()` packs `data1` with the
channel and cable of the message into a (valid) MIDI address. -/
def ChannelMessageMatcher.getAddress (m : ChannelMessageMatcher) :
    MIDIAddress :=
  ⟨true, m.data1, m.channel, m.cable⟩

/-- Wrapping `uint8_t` subtraction: the value of `(uint8_t)(a - b)`. -/
def usub8 (a b : Nat) : Nat := (256 + a % 256 - b % 256) % 256

namespace BankableMIDIMatcherHelpers

/-- `BankableMIDIMatcherHelpers::matchBankable(uint8_t, uint8_t, Bank)`:
`uint8_t diff = toMatch - base; return toMatch >= base && diff < BankSize *
bank.getTracksPerBank() && diff % bank.getTracksPerBank() == 0;`. -/
def matchBankable (bankSize : Nat) (toMatch base : Nat) (bank : Bank) :
    Bool :=
  decide (base ≤ toMatch) &&
    decide (usub8 toMatch base < bankSize * bank.tracksPerBank) &&
    decide (usub8 toMatch base % bank.tracksPerBank = 0)

/-- `BankableMIDIMatcherHelpers::matchBankable(MIDIAddress, MIDIAddress,
BaseBankConfig)`: fails closed on invalid addresses, requires the two
unselected fields to be equal and the selected field to be a bank member. -/
def matchBankableAddress (toMatch base : MIDIAddress)
    (config : BaseBankConfig) : Bool :=
  if !toMatch.isValid || !base.isValid then false
  else
    match config.type with
    | BankType.ChangeAddress =>
        toMatch.channel == base.channel && toMatch.cable == base.cable &&
          matchBankable config.bankSize toMatch.address base.address
            config.bank
    | BankType.ChangeChannel =>
        toMatch.address == base.address && toMatch.cable == base.cable &&
          matchBankable config.bankSize toMatch.channel base.channel
            config.bank
    | BankType.ChangeCable =>
        toMatch.address == base.address && toMatch.channel == base.channel &&
          matchBankable config.bankSize toMatch.cable base.cable config.bank

/-- `BankableMIDIMatcherHelpers::getBankIndex`: the selected-field
difference is computed in `int` arithmetic (C++ integer promotion), divided
by `tracksPerBank` with C truncating division (`Int.tdiv`), and the result is converted
back to `uint8_t` (reduction mod 256). -/
def getBankIndex (target base : MIDIAddress) (config : BaseBankConfig) :
    Nat :=
  let nt : Int := config.bank.tracksPerBank
  let d : Int :=
    match config.type with
    | BankType.ChangeAddress =>
        Int.tdiv ((target.address : Int) - (base.address : Int)) nt
    | BankType.ChangeChannel =>
        Int.tdiv ((target.channel : Int) - (base.channel : Int)) nt
    | BankType.ChangeCable =>
        Int.tdiv ((target.cable : Int) - (base.cable : Int)) nt
  (d % 256).toNat

end BankableMIDIMatcherHelpers

/-- `TwoByteMIDIMatcher`: matches a single fixed address. -/
structure TwoByteMIDIMatcher where
  address : MIDIAddress
deriving DecidableEq

/-- `TwoByteMIDIMatcher::Result` (`match` is a Lean keyword, the field is
named `matched`). -/
structure TwoByteMIDIMatcher.Result where
  matched : Bool
  value : Nat
deriving DecidableEq

/-- `TwoByteMIDIMatcher::operator()`: on a single-address match, decode
`data2`, forcing it to `0` for note-off messages. -/
def TwoByteMIDIMatcher.run (self : TwoByteMIDIMatcher)
    (m : ChannelMessageMatcher) : TwoByteMIDIMatcher.Result :=
  if !(MIDIAddress.matchSingle m.getAddress self.address) then ⟨false, 0⟩
  else ⟨true, if m.type = MIDIMessageType.NoteOff then 0 else m.data2⟩

/-- `TwoByteRangeMIDIMatcher`: matches a contiguous range of addresses. -/
structure TwoByteRangeMIDIMatcher where
  address : MIDIAddress
  length : Nat
deriving DecidableEq

/-- `TwoByteRangeMIDIMatcher::Result`. -/
structure TwoByteRangeMIDIMatcher.Result where
  matched : Bool
  value : Nat
  index : Nat
deriving DecidableEq

/-- `TwoByteRangeMIDIMatcher::operator()`: on an in-range match, decode
`data2` (note-off forced to `0`) and the range index
`uint8_t index = m.data1 - address.getAddress()`. -/
def TwoByteRangeMIDIMatcher.run (self : TwoByteRangeMIDIMatcher)
    (m : ChannelMessageMatcher) : TwoByteRangeMIDIMatcher.Result :=
  if !(MIDIAddress.matchAddressInRange m.getAddress self.address
      self.length) then ⟨false, 0, 0⟩
  else
    ⟨true, if m.type = MIDIMessageType.NoteOff then 0 else m.data2,
      usub8 m.data1 self.address.address⟩

/-- `BankableTwoByteMIDIMatcher<BankSize>`: single address over banks. -/
structure BankableTwoByteMIDIMatcher where
  config : BaseBankConfig
  address : MIDIAddress
deriving DecidableEq

/-- `BankableTwoByteMIDIMatcher::Result`. -/
structure BankableTwoByteMIDIMatcher.Result where
  matched : Bool
  value : Nat
  bankIndex : Nat
deriving DecidableEq

/-- `BankableTwoByteMIDIMatcher::operator()`. -/
def BankableTwoByteMIDIMatcher.run (self : BankableTwoByteMIDIMatcher)
    (m : ChannelMessageMatcher) : BankableTwoByteMIDIMatcher.Result :=
  if !(BankableMIDIMatcherHelpers.matchBankableAddress m.getAddress
      self.address self.config) then ⟨false, 0, 0⟩
  else
    ⟨true, if m.type = MIDIMessageType.NoteOff then 0 else m.data2,
      BankableMIDIMatcherHelpers.getBankIndex m.getAddress self.address
        self.config⟩

/-- `BankableTwoByteRangeMIDIMatcher<BankSize>`: address range over banks. -/
structure BankableTwoByteRangeMIDIMatcher where
  config : BaseBankConfig
  address : MIDIAddress
  length : Nat
deriving DecidableEq

def BankableTwoByteRangeMIDIMatcher.getBank
    (self : BankableTwoByteRangeMIDIMatcher) : Bank := self.config.bank

def BankableTwoByteRangeMIDIMatcher.getBankType
    (self : BankableTwoByteRangeMIDIMatcher) : BankType := self.config.type

/-- `BankableTwoByteRangeMIDIMatcher::matchBankableInRange(uint8_t, uint8_t,
uint8_t)`: like `matchBankable` but the residue mod `tracksPerBank` may be
anywhere below `length`. -/
def BankableTwoByteRangeMIDIMatcher.matchBankableInRange
    (self : BankableTwoByteRangeMIDIMatcher) (toMatch base length : Nat) :
    Bool :=
  decide (base ≤ toMatch) &&
    decide (usub8 toMatch base <
      self.config.bankSize * self.getBank.tracksPerBank) &&
    decide (usub8 toMatch base % self.getBank.tracksPerBank < length)

/-- `BankableTwoByteRangeMIDIMatcher::getRangeIndex`: the raw `uint8_t`
address difference, reduced mod `tracksPerBank` only in the
`CHANGE_ADDRESS` case. -/
def BankableTwoByteRangeMIDIMatcher.getRangeIndex
    (self : BankableTwoByteRangeMIDIMatcher) (target base : MIDIAddress) :
    Nat :=
  let diff := usub8 target.address base.address
  if self.getBankType = BankType.ChangeAddress then
    diff % self.getBank.tracksPerBank
  else diff

/-- `BankableTwoByteRangeMIDIMatcher::inRange` (static):
`(base <= toMatch) && (toMatch - base < length)` (the subtraction is `int`
arithmetic, guarded by the first conjunct). -/
def BankableTwoByteRangeMIDIMatcher.inRange (toMatch base length : Nat) :
    Bool :=
  decide (base ≤ toMatch) && decide (toMatch - base < length)

/-- `BankableTwoByteRangeMIDIMatcher::matchBankableAddressInRange`. -/
def BankableTwoByteRangeMIDIMatcher.matchBankableAddressInRange
    (self : BankableTwoByteRangeMIDIMatcher) (toMatch base : MIDIAddress) :
    Bool :=
  if !toMatch.isValid || !base.isValid then false
  else
    match self.getBankType with
    | BankType.ChangeAddress =>
        toMatch.channel == base.channel && toMatch.cable == base.cable &&
          self.matchBankableInRange toMatch.address base.address self.length
    | BankType.ChangeChannel =>
        BankableTwoByteRangeMIDIMatcher.inRange toMatch.address base.address
            self.length &&
          toMatch.cable == base.cable &&
          BankableMIDIMatcherHelpers.matchBankable self.config.bankSize
            toMatch.channel base.channel self.getBank
    | BankType.ChangeCable =>
        BankableTwoByteRangeMIDIMatcher.inRange toMatch.address base.address
            self.length &&
          toMatch.channel == base.channel &&
          BankableMIDIMatcherHelpers.matchBankable self.config.bankSize
            toMatch.cable base.cable self.getBank

/-- `BankableTwoByteRangeMIDIMatcher::Result`. -/
structure BankableTwoByteRangeMIDIMatcher.Result where
  matched : Bool
  value : Nat
  bankIndex : Nat
  index : Nat
deriving DecidableEq

/-- `BankableTwoByteRangeMIDIMatcher::operator()`. -/
def BankableTwoByteRangeMIDIMatcher.run
    (self : BankableTwoByteRangeMIDIMatcher) (m : ChannelMessageMatcher) :
    BankableTwoByteRangeMIDIMatcher.Result :=
  if !(self.matchBankableAddressInRange m.getAddress self.address) then
    ⟨false, 0, 0, 0⟩
  else
    ⟨true, if m.type = MIDIMessageType.NoteOff then 0 else m.data2,
      BankableMIDIMatcherHelpers.getBankIndex m.getAddress self.address
        self.config,
      self.getRangeIndex m.getAddress self.address⟩

namespace MCU

/-- `VUState::Changed`: tri-state change report of `VUState::update`. -/
inductive Changed
  | NothingChanged
  | ValueChanged
  | OverloadChanged
deriving DecidableEq

/-- `MCU::VUState`: the VU meter value (a 4-bit `uint8_t` bitfield, so
stores mod 16) and the overload indicator. -/
structure VUState where
  value : Nat
  overload : Bool
deriving DecidableEq

instance : Inhabited VUState := ⟨⟨0, false⟩⟩

/-- `VUState::update`: dispatch on the raw 4-bit payload; `0xF` clears
overload, `0xE` sets overload, `0xD` has no meaning, anything else is
stored as the new value (truncated to the 4-bit field). Returns the change
report together with the new state (the C++ mutates in place). -/
def VUState.update (s : VUState) (data : Nat) : Changed × VUState :=
  if data = 0xF then
    (if s.overload then Changed.OverloadChanged else Changed.NothingChanged,
      { s with overload := false })
  else if data = 0xE then
    (if !s.overload then Changed.OverloadChanged else Changed.NothingChanged,
      { s with overload := true })
  else if data = 0xD then
    (Changed.NothingChanged, s)
  else
    (if s.value ≠ data then Changed.ValueChanged else Changed.NothingChanged,
      { s with value := data % 16 })

/-- `VUState::decay`: subtract one from the value if it is not zero;
returns whether the value changed, with the new state. -/
def VUState.decay (s : VUState) : Bool × VUState :=
  if s.value = 0 then (false, s)
  else (true, { s with value := s.value - 1 })

/-- `n` successive applications of `VUState::decay`. -/
def VUState.decayIter : Nat → VUState → VUState
  | 0, s => s
  | n + 1, s => VUState.decayIter n (s.decay).2

/-- Modelled from the spec: the periodic-interval timer (`AH::Timer`) is an
external capability; the core only needs its configured `interval`
(`getInterval`), the ability to restart it (`beginNextPeriod`, recorded
here by a restart counter so that "the timer was not restarted" is
observable), and a per-tick "has the interval elapsed" query, which the
element models receive as an oracle argument. -/
structure Timer where
  interval : Nat
  restarts : Nat
deriving DecidableEq

/-- Modelled from the spec: restarting the timer begins a new interval. -/
def Timer.beginNextPeriod (t : Timer) : Timer :=
  { t with restarts := t.restarts + 1 }

/-- `MCU::NewVU`: the non-bankable VU input element (its configured
address, one `VUState`, the dirty flag and the decay timer). -/
structure NewVU where
  address : MIDIAddress
  state : VUState
  dirty : Bool
  decayTimer : Timer
deriving DecidableEq

/-- `NewVU::handleUpdate`: run the state machine on the matched payload;
on any change set `dirty`, and on a value change also restart the decay
timer. -/
def NewVU.handleUpdate (e : NewVU) (data : Nat) : NewVU :=
  let r := e.state.update data
  if r.1 ≠ Changed.NothingChanged then
    { e with
      state := r.2
      decayTimer :=
        if r.1 = Changed.ValueChanged then e.decayTimer.beginNextPeriod
        else e.decayTimer
      dirty := true }
  else { e with state := r.2 }

/-- `NewVU::reset`: `state = {};` (the dirty flag is not touched). -/
def NewVU.reset (e : NewVU) : NewVU := { e with state := ⟨0, false⟩ }

/-- `NewVU::update` (the tick hook): if the decay interval is not `Hold`
(zero) and the timer fired, decay and accumulate into `dirty`. The timer
query result is the oracle argument `fired`. -/
def NewVU.update (e : NewVU) (fired : Bool) : NewVU :=
  if e.decayTimer.interval ≠ 0 ∧ fired = true then
    let d := e.state.decay
    { e with state := d.2, dirty := e.dirty || d.1 }
  else e

/-- A sequence of tick-driven `NewVU::update` calls, one oracle answer per
tick. -/
def NewVU.ticks (e : NewVU) (fs : List Bool) : NewVU :=
  fs.foldl NewVU.update e

namespace Bankable

/-- `MCU::Bankable::NewVU<BankSize>`: the bankable VU input element; one
`VUState` per bank (`states` has length `BankSize`), a shared dirty flag
and decay timer, and the bank configuration through which the active bank
selection is read. -/
structure NewVU where
  config : BaseBankConfig
  address : MIDIAddress
  states : List VUState
  dirty : Bool
  decayTimer : Timer
deriving DecidableEq

/-- `Bankable::NewVU::getActiveBank`: reads the externally-owned bank
selection (`matcher.getSelection()`). -/
def NewVU.getActiveBank (e : NewVU) : Nat := e.config.bank.selection

/-- `Bankable::NewVU::handleUpdate`: run the state machine on the slot the
message's bank index addresses; on any change set `dirty`, and restart the
decay timer only for a value change of the active bank. -/
def NewVU.handleUpdate (e : NewVU) (bankIndex data : Nat) : NewVU :=
  let r := (e.states.getD bankIndex default).update data
  let sts := e.states.set bankIndex r.2
  if r.1 ≠ Changed.NothingChanged then
    { e with
      states := sts
      decayTimer :=
        if r.1 = Changed.ValueChanged ∧ bankIndex = e.getActiveBank then
          e.decayTimer.beginNextPeriod
        else e.decayTimer
      dirty := true }
  else { e with states := sts }

/-- `Bankable::NewVU::reset`: `states = {{}}; dirty = true;`. -/
def NewVU.reset (e : NewVU) : NewVU :=
  { e with states := List.replicate e.states.length ⟨0, false⟩
           dirty := true }

/-- `Bankable::NewVU::update` (the tick hook): if the decay interval is not
`Hold` and the timer fired, decay every bank's slot, marking dirty only
when the active bank's slot decayed. -/
def NewVU.update (e : NewVU) (fired : Bool) : NewVU :=
  if e.decayTimer.interval ≠ 0 ∧ fired = true then
    let r := (List.range e.states.length).foldl
      (fun (acc : List VUState × Bool) (i : Nat) =>
        let d := (acc.1.getD i default).decay
        (acc.1.set i d.2, acc.2 || (d.1 && decide (i = e.getActiveBank))))
      (e.states, e.dirty)
    { e with states := r.1, dirty := r.2 }
  else e

/-- A sequence of tick-driven `Bankable::NewVU::update` calls. -/
def NewVU.ticks (e : NewVU) (fs : List Bool) : NewVU :=
  fs.foldl NewVU.update e

end Bankable

end MCU

/-! ## Spec-side formulas

The following definitions transcribe the *specification's* wording of the
bank-membership conditions (claims C2 and C3), to be compared against the
code-side predicates above. -/

/-- The address field selected by a bank type (spec wording: "the one
selected by `config.type`"). -/
def specSelectedField (ty : BankType) (a : MIDIAddress) : Nat :=
  match ty with
  | BankType.ChangeAddress => a.address
  | BankType.ChangeChannel => a.channel
  | BankType.ChangeCable => a.cable

/-- Spec wording: "all address fields *other than* the one selected by
`config.type` are identical between target and base". -/
def specOtherFieldsEq (ty : BankType) (a b : MIDIAddress) : Prop :=
  match ty with
  | BankType.ChangeAddress => a.channel = b.channel ∧ a.cable = b.cable
  | BankType.ChangeChannel => a.address = b.address ∧ a.cable = b.cable
  | BankType.ChangeCable => a.address = b.address ∧ a.channel = b.channel

instance (ty : BankType) (a b : MIDIAddress) :
    Decidable (specOtherFieldsEq ty a b) := by
  unfold specOtherFieldsEq
  cases ty <;> exact inferInstance

/-- Claim C2's membership formula, exactly as stated: the unselected fields
are identical and the unsigned (wrapping `uint8_t`) selected-field
difference satisfies `diff < BankSize * tracksPerBank` and
`diff % tracksPerBank == 0`. -/
def specIsBankMemberClaim (config : BaseBankConfig)
    (target base : MIDIAddress) : Prop :=
  specOtherFieldsEq config.type target base ∧
    usub8 (specSelectedField config.type target)
        (specSelectedField config.type base) <
      config.bankSize * config.bank.tracksPerBank ∧
    usub8 (specSelectedField config.type target)
        (specSelectedField config.type base) %
      config.bank.tracksPerBank = 0

instance (config : BaseBankConfig) (target base : MIDIAddress) :
    Decidable (specIsBankMemberClaim config target base) := by
  unfold specIsBankMemberClaim
  exact inferInstance

/-- Claim C3's range-membership formula, exactly as stated: in the
`ChangeAddress` case, channel and cable equal plus the stride/length
arithmetic on the wrapping difference; in the other cases, address-range
containment plus the bank-membership arithmetic on the channel or cable
field (the claim names no further condition). -/
def specRangeMemberClaim (config : BaseBankConfig) (length : Nat)
    (target base : MIDIAddress) : Prop :=
  match config.type with
  | BankType.ChangeAddress =>
      target.channel = base.channel ∧ target.cable = base.cable ∧
        usub8 target.address base.address <
          config.bankSize * config.bank.tracksPerBank ∧
        usub8 target.address base.address % config.bank.tracksPerBank <
          length
  | BankType.ChangeChannel =>
      base.address ≤ target.address ∧
        target.address < base.address + length ∧
        BankableMIDIMatcherHelpers.matchBankable config.bankSize
          target.channel base.channel config.bank = true
  | BankType.ChangeCable =>
      base.address ≤ target.address ∧
        target.address < base.address + length ∧
        BankableMIDIMatcherHelpers.matchBankable config.bankSize
          target.cable base.cable config.bank = true

instance (config : BaseBankConfig) (length : Nat)
    (target base : MIDIAddress) :
    Decidable (specRangeMemberClaim config length target base) := by
  unfold specRangeMemberClaim
  cases config.type <;> exact inferInstance

/-- The amended C3 range-membership formula: both addresses valid, the
remaining (third) field equal, the selected-field difference taken with
`base ≤ target`, stride bound and (for `ChangeAddress`) residue below
`length`, and for the channel/cable cases address-range containment plus
exact bank arithmetic on the selected field. -/
def specRangeMemberAmended (config : BaseBankConfig) (length : Nat)
    (target base : MIDIAddress) : Prop :=
  match config.type with
  | BankType.ChangeAddress =>
      target.channel = base.channel ∧ target.cable = base.cable ∧
        base.address ≤ target.address ∧
        target.address - base.address <
          config.bankSize * config.bank.tracksPerBank ∧
        (target.address - base.address) % config.bank.tracksPerBank < length
  | BankType.ChangeChannel =>
      base.address ≤ target.address ∧
        target.address < base.address + length ∧
        target.cable = base.cable ∧
        base.channel ≤ target.channel ∧
        target.channel - base.channel <
          config.bankSize * config.bank.tracksPerBank ∧
        (target.channel - base.channel) % config.bank.tracksPerBank = 0
  | BankType.ChangeCable =>
      base.address ≤ target.address ∧
        target.address < base.address + length ∧
        target.channel = base.channel ∧
        base.cable ≤ target.cable ∧
        target.cable - base.cable <
          config.bankSize * config.bank.tracksPerBank ∧
        (target.cable - base.cable) % config.bank.tracksPerBank = 0

instance (config : BaseBankConfig) (length : Nat)
    (target base : MIDIAddress) :
    Decidable (specRangeMemberAmended config length target base) := by
  unfold specRangeMemberAmended
  cases config.type <;> exact inferInstance

/-! ## Arithmetic helper lemmas -/

/-- On in-range `uint8_t` operands with `b ≤ a`, the wrapping difference is
the ordinary one. -/
theorem usub8_eq_sub (a b : Nat) (ha : a < 256) (hb : b < 256)
    (hge : b ≤ a) : usub8 a b = a - b := by
  unfold usub8
  omega

/-- Characterization of the byte-level `matchBankable` on in-range
operands. -/
theorem matchBankable_iff (bankSize : Nat) (a b : Nat) (bank : Bank)
    (ha : a < 256) (hb : b < 256) :
    BankableMIDIMatcherHelpers.matchBankable bankSize a b bank = true ↔
      b ≤ a ∧ a - b < bankSize * bank.tracksPerBank ∧
        (a - b) % bank.tracksPerBank = 0 := by
  unfold BankableMIDIMatcherHelpers.matchBankable
  simp only [Bool.and_eq_true, decide_eq_true_eq]
  constructor
  · rintro ⟨⟨hge, hlt⟩, hmod⟩
    rw [usub8_eq_sub a b ha hb hge] at hlt hmod
    exact ⟨hge, hlt, hmod⟩
  · rintro ⟨hge, hlt, hmod⟩
    rw [usub8_eq_sub a b ha hb hge]
    exact ⟨⟨hge, hlt⟩, hmod⟩

/-- Characterization of the member function `matchBankableInRange` on
in-range operands. -/
theorem matchBankableInRange_iff (self : BankableTwoByteRangeMIDIMatcher)
    (a b len : Nat) (ha : a < 256) (hb : b < 256) :
    self.matchBankableInRange a b len = true ↔
      b ≤ a ∧ a - b < self.config.bankSize * self.config.bank.tracksPerBank ∧
        (a - b) % self.config.bank.tracksPerBank < len := by
  unfold BankableTwoByteRangeMIDIMatcher.matchBankableInRange
    BankableTwoByteRangeMIDIMatcher.getBank
  simp only [Bool.and_eq_true, decide_eq_true_eq]
  constructor
  · rintro ⟨⟨hge, hlt⟩, hmod⟩
    rw [usub8_eq_sub a b ha hb hge] at hlt hmod
    exact ⟨hge, hlt, hmod⟩
  · rintro ⟨hge, hlt, hmod⟩
    rw [usub8_eq_sub a b ha hb hge]
    exact ⟨⟨hge, hlt⟩, hmod⟩

/-- Characterization of the static `inRange` helper. -/
theorem inRange_iff (t b len : Nat) :
    BankableTwoByteRangeMIDIMatcher.inRange t b len = true ↔
      b ≤ t ∧ t < b + len := by
  unfold BankableTwoByteRangeMIDIMatcher.inRange
  simp only [Bool.and_eq_true, decide_eq_true_eq]
  omega

/-- The `int`-arithmetic bank index collapses to natural division when the
difference is a small natural number. -/
theorem tdiv_emod_toNat (a b t : Nat) (hge : b ≤ a) (hlt : a - b < 256) :
    (Int.tdiv ((a : Int) - (b : Int)) (t : Int) % 256).toNat =
      (a - b) / t := by
  have h1 : (a : Int) - (b : Int) = ((a - b : Nat) : Int) := by omega
  rw [h1]
  have h2 : Int.tdiv ((a - b : Nat) : Int) (t : Int) =
      (((a - b) / t : Nat) : Int) := rfl
  rw [h2]
  have h3 : (a - b) / t < 256 := lt_of_le_of_lt (Nat.div_le_self _ _) hlt
  have h4 : ((((a - b) / t : Nat) : Int)) % 256 = (((a - b) / t : Nat) : Int) :=
    Int.emod_eq_of_lt (Int.natCast_nonneg _) (by exact_mod_cast h3)
  rw [h4]
  exact Int.toNat_natCast _

/-- `getBankIndex` collapses to natural stride division when the selected
fields are ordered and their difference is below 256. -/
theorem getBankIndex_eq (target base : MIDIAddress)
    (config : BaseBankConfig)
    (hge : specSelectedField config.type base ≤
      specSelectedField config.type target)
    (hlt : specSelectedField config.type target -
      specSelectedField config.type base < 256) :
    BankableMIDIMatcherHelpers.getBankIndex target base config =
      (specSelectedField config.type target -
        specSelectedField config.type base) /
        config.bank.tracksPerBank := by
  obtain ⟨N, bank, ty⟩ := config
  cases ty <;>
    (simp only [BankableMIDIMatcherHelpers.getBankIndex,
      specSelectedField] at hge hlt ⊢) <;>
    exact tdiv_emod_toNat _ _ _ hge hlt

/-! ## Evaluation lemmas for the VU state machine -/

theorem MCU.VUState.update_15 (s : MCU.VUState) :
    s.update 15 =
      (if s.overload then MCU.Changed.OverloadChanged
       else MCU.Changed.NothingChanged,
        ⟨s.value, false⟩) := rfl

theorem MCU.VUState.update_14 (s : MCU.VUState) :
    s.update 14 =
      (if !s.overload then MCU.Changed.OverloadChanged
       else MCU.Changed.NothingChanged,
        ⟨s.value, true⟩) := rfl

theorem MCU.VUState.update_13 (s : MCU.VUState) :
    s.update 13 = (MCU.Changed.NothingChanged, s) := rfl

theorem MCU.VUState.update_val (s : MCU.VUState) (data : Nat)
    (h : data ≤ 12) :
    s.update data =
      (if s.value = data then MCU.Changed.NothingChanged
       else MCU.Changed.ValueChanged,
        ⟨data, s.overload⟩) := by
  unfold MCU.VUState.update
  rw [if_neg (by omega), if_neg (by omega), if_neg (by omega)]
  have hm : data % 16 = data := by omega
  rw [hm]
  by_cases hv : s.value = data <;> simp [hv]

/-! ## Claim theorems -/

/-- C4: for every `VUState` and every nibble in `[0x0, 0xF]`,
`VUState::update` clears overload on `0xF` (reporting `OverloadChanged` iff
overload was set), sets overload on `0xE` (reporting `OverloadChanged` iff
it was clear), is a pure no-op on `0xD`, stores the nibble as the new value
on `0x0..0xC` (reporting `ValueChanged` iff it differed, overload
untouched), and no single call changes both the value and the overload
flag. -/
theorem C4_vustate_update (s : MCU.VUState) (data : Nat) (hd : data ≤ 15) :
    (data = 15 → (s.update data).2.value = s.value ∧
      (s.update data).2.overload = false ∧
      (s.update data).1 =
        (if s.overload then MCU.Changed.OverloadChanged
         else MCU.Changed.NothingChanged)) ∧
    (data = 14 → (s.update data).2.value = s.value ∧
      (s.update data).2.overload = true ∧
      (s.update data).1 =
        (if s.overload then MCU.Changed.NothingChanged
         else MCU.Changed.OverloadChanged)) ∧
    (data = 13 → s.update data = (MCU.Changed.NothingChanged, s)) ∧
    (data ≤ 12 → (s.update data).2.value = data ∧
      (s.update data).2.overload = s.overload ∧
      (s.update data).1 =
        (if s.value = data then MCU.Changed.NothingChanged
         else MCU.Changed.ValueChanged)) ∧
    ¬((s.update data).2.value ≠ s.value ∧
      (s.update data).2.overload ≠ s.overload) := by
  obtain ⟨v, o⟩ := s
  refine ⟨?_, ?_, ?_, ?_, ?_⟩
  · rintro rfl
    rw [MCU.VUState.update_15]
    cases o <;> exact ⟨rfl, rfl, rfl⟩
  · rintro rfl
    rw [MCU.VUState.update_14]
    cases o <;> exact ⟨rfl, rfl, rfl⟩
  · rintro rfl
    exact MCU.VUState.update_13 _
  · intro h
    rw [MCU.VUState.update_val _ _ h]
    by_cases hv : v = data <;> simp [hv]
  · rcases Nat.lt_or_ge data 13 with h | h
    · rw [MCU.VUState.update_val _ _ (by omega)]
      intro hc
      exact hc.2 rfl
    · have h3 : data = 13 ∨ data = 14 ∨ data = 15 := by omega
      rcases h3 with rfl | rfl | rfl
      · rw [MCU.VUState.update_13]
        intro hc
        exact hc.1 rfl
      · rw [MCU.VUState.update_14]
        intro hc
        exact hc.1 rfl
      · rw [MCU.VUState.update_15]
        intro hc
        exact hc.1 rfl

/-- C4 witness: a concrete evaluation (value update `0x7` on state
`{value 5, overload false}`). -/
theorem C4_witness :
    ((MCU.VUState.mk 5 false).update 7).2.value = 7 ∧
    ((MCU.VUState.mk 5 false).update 7).2.overload =
      (MCU.VUState.mk 5 false).overload ∧
    ((MCU.VUState.mk 5 false).update 7).1 =
      (if (MCU.VUState.mk 5 false).value = 7 then MCU.Changed.NothingChanged
       else MCU.Changed.ValueChanged) :=
  (C4_vustate_update ⟨5, false⟩ 7 (by decide)).2.2.2.1 (by decide)

/-- C8: `VUState::decay` on value `0` returns `false` and leaves the state
unchanged; on value `v > 0` it returns `true` and decrements; hence after
any `n ≥ value` successive decays the value is `0` (and stays there), with
the overload flag never touched. -/
theorem C8_decay (s : MCU.VUState) :
    (s.value = 0 → s.decay = (false, s)) ∧
    (0 < s.value → s.decay = (true, ⟨s.value - 1, s.overload⟩)) ∧
    (∀ n, s.value ≤ n → (MCU.VUState.decayIter n s).value = 0 ∧
      (MCU.VUState.decayIter n s).overload = s.overload) := by
  have hd2 : ∀ t : MCU.VUState,
      (t.decay).2.value = t.value - 1 ∧ (t.decay).2.overload = t.overload := by
    intro t
    unfold MCU.VUState.decay
    split_ifs with h0
    · refine ⟨?_, rfl⟩
      show t.value = t.value - 1
      omega
    · exact ⟨rfl, rfl⟩
  refine ⟨?_, ?_, ?_⟩
  · intro h
    unfold MCU.VUState.decay
    rw [if_pos h]
  · intro h
    unfold MCU.VUState.decay
    rw [if_neg (by omega)]
  · have aux : ∀ n (t : MCU.VUState), t.value ≤ n →
        (MCU.VUState.decayIter n t).value = 0 ∧
        (MCU.VUState.decayIter n t).overload = t.overload := by
      intro n
      induction n with
      | zero =>
        intro t ht
        have h0 : MCU.VUState.decayIter 0 t = t := rfl
        rw [h0]
        exact ⟨by omega, rfl⟩
      | succ n ih =>
        intro t ht
        have hstep : MCU.VUState.decayIter (n + 1) t =
            MCU.VUState.decayIter n (t.decay).2 := rfl
        rw [hstep]
        obtain ⟨ha, hb⟩ := ih (t.decay).2 (by have := (hd2 t).1; omega)
        exact ⟨ha, hb.trans (hd2 t).2⟩
    exact fun n h => aux n s h

/-- C8 witness: a concrete evaluation on state `{value 2, overload true}`
with five decay steps. -/
theorem C8_witness :
    (MCU.VUState.mk 2 true).decay =
      (true, ⟨(MCU.VUState.mk 2 true).value - 1,
        (MCU.VUState.mk 2 true).overload⟩) ∧
    (MCU.VUState.decayIter 5 ⟨2, true⟩).value = 0 ∧
    (MCU.VUState.decayIter 5 ⟨2, true⟩).overload =
      (MCU.VUState.mk 2 true).overload :=
  ⟨(C8_decay ⟨2, true⟩).2.1 (by decide),
    (C8_decay ⟨2, true⟩).2.2 5 (by decide)⟩

/-- The spec's example bank geometry: 2 banks, 4 tracks per bank, the
address changes across banks. -/
def cfgEx : BaseBankConfig := ⟨2, ⟨4, 0⟩, BankType.ChangeAddress⟩

/-- The spec's example base address 3 (channel 0, cable 0). -/
def addr3 : MIDIAddress := ⟨true, 3, 0, 0⟩

/-- Address 7 = base 3 + one bank stride. -/
def addr7 : MIDIAddress := ⟨true, 7, 0, 0⟩

/-- An invalid (sentinel) address; its stored fields are all zero. -/
def addrInvalid : MIDIAddress := ⟨false, 0, 0, 0⟩

/-- A valid all-zero address. -/
def addr0 : MIDIAddress := ⟨true, 0, 0, 0⟩

/-- C2 counterexample: with the example geometry, an *invalid* target whose
stored fields coincide with a valid base address 0 satisfies the claim's
membership formula (fields equal, `diff = 0 < 8`, `0 % 4 == 0`), yet
`matchBankable` fails closed on it, so the claimed "if and only if" is
false. -/
theorem C2_counterexample :
    ¬ (BankableMIDIMatcherHelpers.matchBankableAddress addrInvalid addr0
          cfgEx = true ↔
        specIsBankMemberClaim cfgEx addrInvalid addr0) := by
  decide

/-- C2 (amended): `matchBankable` returns true iff both addresses are
valid, all fields other than the selected one are identical, the selected
fields satisfy `baseField ≤ targetField`, and the difference
`diff = targetField - baseField` satisfies
`diff < BankSize * tracksPerBank` and `diff % tracksPerBank == 0`; in
particular, with `tracksPerBank = 4`, `BankSize = 2`, base `3`,
`ChangeAddress`, exactly the addresses 3 and 7 match. -/
theorem C2_amended :
    (∀ (config : BaseBankConfig) (target base : MIDIAddress),
      target.address < 256 → base.address < 256 →
      target.channel < 256 → base.channel < 256 →
      target.cable < 256 → base.cable < 256 →
      (BankableMIDIMatcherHelpers.matchBankableAddress target base config =
          true ↔
        target.valid = true ∧ base.valid = true ∧
        specOtherFieldsEq config.type target base ∧
        specSelectedField config.type base ≤
          specSelectedField config.type target ∧
        specSelectedField config.type target -
            specSelectedField config.type base <
          config.bankSize * config.bank.tracksPerBank ∧
        (specSelectedField config.type target -
            specSelectedField config.type base) %
          config.bank.tracksPerBank = 0)) ∧
    (∀ n, n < 128 →
      BankableMIDIMatcherHelpers.matchBankableAddress ⟨true, n, 0, 0⟩ addr3
          cfgEx =
        decide (n = 3 ∨ n = 7)) := by
  constructor
  · intro config target base h1 h2 h3 h4 h5 h6
    obtain ⟨N, bank, ty⟩ := config
    obtain ⟨tv, ta, tc, tn⟩ := target
    obtain ⟨bv, ba, bc, bn⟩ := base
    cases tv
    · simp [BankableMIDIMatcherHelpers.matchBankableAddress,
        MIDIAddress.isValid]
    · cases bv
      · simp [BankableMIDIMatcherHelpers.matchBankableAddress,
          MIDIAddress.isValid]
      · cases ty
        · simp only [BankableMIDIMatcherHelpers.matchBankableAddress,
            MIDIAddress.isValid, Bool.not_true, Bool.or_self,
            Bool.false_eq_true, if_false, Bool.and_eq_true, beq_iff_eq,
            specOtherFieldsEq, specSelectedField,
            matchBankable_iff N ta ba bank h1 h2]
          tauto
        · simp only [BankableMIDIMatcherHelpers.matchBankableAddress,
            MIDIAddress.isValid, Bool.not_true, Bool.or_self,
            Bool.false_eq_true, if_false, Bool.and_eq_true, beq_iff_eq,
            specOtherFieldsEq, specSelectedField,
            matchBankable_iff N tc bc bank h3 h4]
          tauto
        · simp only [BankableMIDIMatcherHelpers.matchBankableAddress,
            MIDIAddress.isValid, Bool.not_true, Bool.or_self,
            Bool.false_eq_true, if_false, Bool.and_eq_true, beq_iff_eq,
            specOtherFieldsEq, specSelectedField,
            matchBankable_iff N tn bn bank h5 h6]
          tauto
  · decide

/-- C2 witness: the amended equivalence evaluated at the example geometry
(target 7, base 3) and the example enumeration at 7. -/
theorem C2_witness :
    (BankableMIDIMatcherHelpers.matchBankableAddress addr7 addr3 cfgEx =
        true ↔
      addr7.valid = true ∧ addr3.valid = true ∧
      specOtherFieldsEq cfgEx.type addr7 addr3 ∧
      specSelectedField cfgEx.type addr3 ≤
        specSelectedField cfgEx.type addr7 ∧
      specSelectedField cfgEx.type addr7 -
          specSelectedField cfgEx.type addr3 <
        cfgEx.bankSize * cfgEx.bank.tracksPerBank ∧
      (specSelectedField cfgEx.type addr7 -
          specSelectedField cfgEx.type addr3) %
        cfgEx.bank.tracksPerBank = 0) ∧
    BankableMIDIMatcherHelpers.matchBankableAddress ⟨true, 7, 0, 0⟩ addr3
        cfgEx =
      decide ((7 : Nat) = 3 ∨ (7 : Nat) = 7) :=
  ⟨C2_amended.1 cfgEx addr7 addr3 (by decide) (by decide) (by decide)
      (by decide) (by decide) (by decide),
    C2_amended.2 7 (by decide)⟩

/-- The range-matcher counterexample configuration for C3: 2 banks of 4
channels (`ChangeChannel`), base `{address 3, channel 0, cable 0}`, range
length 2. -/
def matcherC3 : BankableTwoByteRangeMIDIMatcher :=
  ⟨⟨2, ⟨4, 0⟩, BankType.ChangeChannel⟩, ⟨true, 3, 0, 0⟩, 2⟩

/-- A target on a different cable (cable 1) but otherwise matching. -/
def targetC3 : MIDIAddress := ⟨true, 3, 0, 1⟩

/-- C3 counterexample: in the `ChangeChannel` case the code additionally
requires the *cable* fields to be equal, which the claim's
characterization omits; a target on a different cable satisfies the
claim's formula (address in range, channel bank-arithmetic holds) but the
code rejects it. -/
theorem C3_counterexample :
    ¬ (matcherC3.matchBankableAddressInRange targetC3 matcherC3.address =
          true ↔
        specRangeMemberClaim matcherC3.config matcherC3.length targetC3
          matcherC3.address) := by
  decide

/-- The spec's example range-matcher geometry: 2 banks of 4 tracks,
`ChangeAddress`, base address 3, length 2. -/
def matcherEx : BankableTwoByteRangeMIDIMatcher := ⟨cfgEx, addr3, 2⟩

/-- C3 (amended): `matchBankableAddressInRange` matches iff both addresses
are valid and: in the `ChangeAddress` case channel and cable are equal,
`baseAddr ≤ targetAddr`, `diff < BankSize * tracksPerBank` and
`diff % tracksPerBank < length`; in the `ChangeChannel` (resp.
`ChangeCable`) case the address is in `[base, base + length)`, the cable
(resp. channel) fields are equal, and the exact bank arithmetic
(`baseField ≤ targetField`, stride bound, zero residue) holds on the
channel (resp. cable) field. The example geometry matches exactly
addresses {3, 4, 7, 8}, with bank indices 0, 0, 1, 1. -/
theorem C3_amended :
    (∀ (self : BankableTwoByteRangeMIDIMatcher) (target base : MIDIAddress),
      target.address < 256 → base.address < 256 →
      target.channel < 256 → base.channel < 256 →
      target.cable < 256 → base.cable < 256 →
      (self.matchBankableAddressInRange target base = true ↔
        target.valid = true ∧ base.valid = true ∧
        specRangeMemberAmended self.config self.length target base)) ∧
    (∀ n, n < 128 →
      matcherEx.matchBankableAddressInRange ⟨true, n, 0, 0⟩
          matcherEx.address =
        decide (n = 3 ∨ n = 4 ∨ n = 7 ∨ n = 8)) ∧
    BankableMIDIMatcherHelpers.getBankIndex ⟨true, 3, 0, 0⟩
      matcherEx.address matcherEx.config = 0 ∧
    BankableMIDIMatcherHelpers.getBankIndex ⟨true, 4, 0, 0⟩
      matcherEx.address matcherEx.config = 0 ∧
    BankableMIDIMatcherHelpers.getBankIndex ⟨true, 7, 0, 0⟩
      matcherEx.address matcherEx.config = 1 ∧
    BankableMIDIMatcherHelpers.getBankIndex ⟨true, 8, 0, 0⟩
      matcherEx.address matcherEx.config = 1 := by
  refine ⟨?_, by decide, by decide, by decide, by decide, by decide⟩
  intro self target base h1 h2 h3 h4 h5 h6
  obtain ⟨⟨N, bank, ty⟩, addr, len⟩ := self
  obtain ⟨tv, ta, tc, tn⟩ := target
  obtain ⟨bv, ba, bc, bn⟩ := base
  cases tv
  · simp [BankableTwoByteRangeMIDIMatcher.matchBankableAddressInRange,
      MIDIAddress.isValid]
  · cases bv
    · simp [BankableTwoByteRangeMIDIMatcher.matchBankableAddressInRange,
        MIDIAddress.isValid]
    · cases ty
      · simp only [BankableTwoByteRangeMIDIMatcher.matchBankableAddressInRange,
          BankableTwoByteRangeMIDIMatcher.getBankType, MIDIAddress.isValid,
          Bool.not_true, Bool.or_self, Bool.false_eq_true, if_false,
          Bool.and_eq_true, beq_iff_eq, specRangeMemberAmended,
          matchBankableInRange_iff _ ta ba len h1 h2]
        tauto
      · simp only [BankableTwoByteRangeMIDIMatcher.matchBankableAddressInRange,
          BankableTwoByteRangeMIDIMatcher.getBankType,
          BankableTwoByteRangeMIDIMatcher.getBank, MIDIAddress.isValid,
          Bool.not_true, Bool.or_self, Bool.false_eq_true, if_false,
          Bool.and_eq_true, beq_iff_eq, specRangeMemberAmended, inRange_iff,
          matchBankable_iff N tc bc bank h3 h4]
        tauto
      · simp only [BankableTwoByteRangeMIDIMatcher.matchBankableAddressInRange,
          BankableTwoByteRangeMIDIMatcher.getBankType,
          BankableTwoByteRangeMIDIMatcher.getBank, MIDIAddress.isValid,
          Bool.not_true, Bool.or_self, Bool.false_eq_true, if_false,
          Bool.and_eq_true, beq_iff_eq, specRangeMemberAmended, inRange_iff,
          matchBankable_iff N tn bn bank h5 h6]
        tauto

/-- C3 witness: the amended equivalence evaluated at the example geometry
(target 4, base 3) and the example enumeration at 4. -/
theorem C3_witness :
    (matcherEx.matchBankableAddressInRange ⟨true, 4, 0, 0⟩ addr3 = true ↔
      (MIDIAddress.mk true 4 0 0).valid = true ∧ addr3.valid = true ∧
      specRangeMemberAmended matcherEx.config matcherEx.length
        ⟨true, 4, 0, 0⟩ addr3) ∧
    matcherEx.matchBankableAddressInRange ⟨true, 4, 0, 0⟩
        matcherEx.address =
      decide ((4 : Nat) = 3 ∨ (4 : Nat) = 4 ∨ (4 : Nat) = 7 ∨
        (4 : Nat) = 8) :=
  ⟨C3_amended.1 matcherEx ⟨true, 4, 0, 0⟩ addr3 (by decide) (by decide)
      (by decide) (by decide) (by decide) (by decide),
    C3_amended.2.1 4 (by decide)⟩

/-- C5: whenever a bankable match predicate accepts (for the single-address
helper, the range member function, and at the level of the two bankable
matchers' results), the bank index computed by `getBankIndex` is strictly
below `BankSize`. Address fields are in `uint8_t` range and
`tracksPerBank ≥ 1` (spec data-model invariants). -/
theorem C5_bankIndex_lt_bankSize :
    (∀ (config : BaseBankConfig) (target base : MIDIAddress),
      target.address < 256 → base.address < 256 →
      target.channel < 256 → base.channel < 256 →
      target.cable < 256 → base.cable < 256 →
      0 < config.bank.tracksPerBank →
      BankableMIDIMatcherHelpers.matchBankableAddress target base config =
        true →
      BankableMIDIMatcherHelpers.getBankIndex target base config <
        config.bankSize) ∧
    (∀ (self : BankableTwoByteRangeMIDIMatcher) (target base : MIDIAddress),
      target.address < 256 → base.address < 256 →
      target.channel < 256 → base.channel < 256 →
      target.cable < 256 → base.cable < 256 →
      0 < self.config.bank.tracksPerBank →
      self.matchBankableAddressInRange target base = true →
      BankableMIDIMatcherHelpers.getBankIndex target base self.config <
        self.config.bankSize) ∧
    (∀ (self : BankableTwoByteMIDIMatcher) (m : ChannelMessageMatcher),
      m.data1 < 256 → m.channel < 256 → m.cable < 256 →
      self.address.address < 256 → self.address.channel < 256 →
      self.address.cable < 256 →
      0 < self.config.bank.tracksPerBank →
      (self.run m).matched = true →
      (self.run m).bankIndex < self.config.bankSize) ∧
    (∀ (self : BankableTwoByteRangeMIDIMatcher) (m : ChannelMessageMatcher),
      m.data1 < 256 → m.channel < 256 → m.cable < 256 →
      self.address.address < 256 → self.address.channel < 256 →
      self.address.cable < 256 →
      0 < self.config.bank.tracksPerBank →
      (self.run m).matched = true →
      (self.run m).bankIndex < self.config.bankSize) := by
  have main1 : ∀ (config : BaseBankConfig) (target base : MIDIAddress),
      target.address < 256 → base.address < 256 →
      target.channel < 256 → base.channel < 256 →
      target.cable < 256 → base.cable < 256 →
      0 < config.bank.tracksPerBank →
      BankableMIDIMatcherHelpers.matchBankableAddress target base config =
        true →
      BankableMIDIMatcherHelpers.getBankIndex target base config <
        config.bankSize := by
    intro config target base h1 h2 h3 h4 h5 h6 ht hm
    obtain ⟨N, bank, ty⟩ := config
    obtain ⟨tv, ta, tc, tn⟩ := target
    obtain ⟨bv, ba, bc, bn⟩ := base
    cases ty <;>
      (cases tv <;> cases bv <;>
        simp only [BankableMIDIMatcherHelpers.matchBankableAddress,
          MIDIAddress.isValid, Bool.not_true, Bool.not_false, Bool.or_self,
          Bool.true_or, Bool.or_true, Bool.or_false, Bool.false_or,
          Bool.false_eq_true, if_false, if_true, Bool.and_eq_true,
          beq_iff_eq] at hm)
    · obtain ⟨-, hmb⟩ := hm
      obtain ⟨hge, hlt, -⟩ := (matchBankable_iff N ta ba bank h1 h2).mp hmb
      rw [getBankIndex_eq ⟨true, ta, tc, tn⟩ ⟨true, ba, bc, bn⟩
        ⟨N, bank, BankType.ChangeAddress⟩ hge
        (Nat.lt_of_le_of_lt (Nat.sub_le ta ba) h1)]
      exact (Nat.div_lt_iff_lt_mul ht).mpr hlt
    · obtain ⟨-, hmb⟩ := hm
      obtain ⟨hge, hlt, -⟩ := (matchBankable_iff N tc bc bank h3 h4).mp hmb
      rw [getBankIndex_eq ⟨true, ta, tc, tn⟩ ⟨true, ba, bc, bn⟩
        ⟨N, bank, BankType.ChangeChannel⟩ hge
        (Nat.lt_of_le_of_lt (Nat.sub_le tc bc) h3)]
      exact (Nat.div_lt_iff_lt_mul ht).mpr hlt
    · obtain ⟨-, hmb⟩ := hm
      obtain ⟨hge, hlt, -⟩ := (matchBankable_iff N tn bn bank h5 h6).mp hmb
      rw [getBankIndex_eq ⟨true, ta, tc, tn⟩ ⟨true, ba, bc, bn⟩
        ⟨N, bank, BankType.ChangeCable⟩ hge
        (Nat.lt_of_le_of_lt (Nat.sub_le tn bn) h5)]
      exact (Nat.div_lt_iff_lt_mul ht).mpr hlt
  have main2 : ∀ (self : BankableTwoByteRangeMIDIMatcher)
      (target base : MIDIAddress),
      target.address < 256 → base.address < 256 →
      target.channel < 256 → base.channel < 256 →
      target.cable < 256 → base.cable < 256 →
      0 < self.config.bank.tracksPerBank →
      self.matchBankableAddressInRange target base = true →
      BankableMIDIMatcherHelpers.getBankIndex target base self.config <
        self.config.bankSize := by
    intro self target base h1 h2 h3 h4 h5 h6 ht hm
    obtain ⟨⟨N, bank, ty⟩, addr, len⟩ := self
    obtain ⟨tv, ta, tc, tn⟩ := target
    obtain ⟨bv, ba, bc, bn⟩ := base
    cases ty <;>
      (cases tv <;> cases bv <;>
        simp only
          [BankableTwoByteRangeMIDIMatcher.matchBankableAddressInRange,
          BankableTwoByteRangeMIDIMatcher.getBankType,
          BankableTwoByteRangeMIDIMatcher.getBank, MIDIAddress.isValid,
          Bool.not_true, Bool.not_false, Bool.or_self, Bool.true_or,
          Bool.or_true, Bool.or_false, Bool.false_or, Bool.false_eq_true,
          if_false, if_true, Bool.and_eq_true, beq_iff_eq] at hm)
    · obtain ⟨-, hmb⟩ := hm
      obtain ⟨hge, hlt, -⟩ :=
        (matchBankableInRange_iff _ ta ba len h1 h2).mp hmb
      rw [getBankIndex_eq ⟨true, ta, tc, tn⟩ ⟨true, ba, bc, bn⟩
        ⟨N, bank, BankType.ChangeAddress⟩ hge
        (Nat.lt_of_le_of_lt (Nat.sub_le ta ba) h1)]
      exact (Nat.div_lt_iff_lt_mul ht).mpr hlt
    · obtain ⟨-, hmb⟩ := hm
      obtain ⟨hge, hlt, -⟩ := (matchBankable_iff N tc bc bank h3 h4).mp hmb
      rw [getBankIndex_eq ⟨true, ta, tc, tn⟩ ⟨true, ba, bc, bn⟩
        ⟨N, bank, BankType.ChangeChannel⟩ hge
        (Nat.lt_of_le_of_lt (Nat.sub_le tc bc) h3)]
      exact (Nat.div_lt_iff_lt_mul ht).mpr hlt
    · obtain ⟨-, hmb⟩ := hm
      obtain ⟨hge, hlt, -⟩ := (matchBankable_iff N tn bn bank h5 h6).mp hmb
      rw [getBankIndex_eq ⟨true, ta, tc, tn⟩ ⟨true, ba, bc, bn⟩
        ⟨N, bank, BankType.ChangeCable⟩ hge
        (Nat.lt_of_le_of_lt (Nat.sub_le tn bn) h5)]
      exact (Nat.div_lt_iff_lt_mul ht).mpr hlt
  refine ⟨main1, main2, ?_, ?_⟩
  · intro self m h1 h2 h3 h4 h5 h6 ht hr
    by_cases hc : BankableMIDIMatcherHelpers.matchBankableAddress
        m.getAddress self.address self.config = true
    · simp only [BankableTwoByteMIDIMatcher.run, hc, Bool.not_true,
        Bool.false_eq_true, if_false]
      exact main1 self.config m.getAddress self.address h1 h4 h2 h5 h3 h6
        ht hc
    · rw [Bool.not_eq_true] at hc
      simp [BankableTwoByteMIDIMatcher.run, hc] at hr
  · intro self m h1 h2 h3 h4 h5 h6 ht hr
    by_cases hc : self.matchBankableAddressInRange m.getAddress
        self.address = true
    · simp only [BankableTwoByteRangeMIDIMatcher.run, hc, Bool.not_true,
        Bool.false_eq_true, if_false]
      exact main2 self m.getAddress self.address h1 h4 h2 h5 h3 h6 ht hc
    · rw [Bool.not_eq_true] at hc
      simp [BankableTwoByteRangeMIDIMatcher.run, hc] at hr

/-- C5 witness: the bank index of matching address 7 against base 3 in the
example geometry, both at the predicate level and through the matcher. -/
theorem C5_witness :
    BankableMIDIMatcherHelpers.getBankIndex addr7 addr3 cfgEx <
      cfgEx.bankSize ∧
    ((BankableTwoByteMIDIMatcher.mk cfgEx addr3).run
        ⟨MIDIMessageType.NoteOn, 7, 10, 0, 0⟩).bankIndex <
      cfgEx.bankSize :=
  ⟨C5_bankIndex_lt_bankSize.1 cfgEx addr7 addr3 (by decide) (by decide)
      (by decide) (by decide) (by decide) (by decide) (by decide)
      (by decide),
    C5_bankIndex_lt_bankSize.2.2.1 ⟨cfgEx, addr3⟩
      ⟨MIDIMessageType.NoteOn, 7, 10, 0, 0⟩ (by decide) (by decide)
      (by decide) (by decide) (by decide) (by decide) (by decide)
      (by decide)⟩

/-- C6: every matching message of note-off type yields `value = 0`, and
every other matching type yields `value = data2`, identically for the four
two-byte matcher variants. -/
theorem C6_noteoff_normalization :
    (∀ (self : TwoByteMIDIMatcher) (m : ChannelMessageMatcher),
      (self.run m).matched = true →
      (self.run m).value =
        if m.type = MIDIMessageType.NoteOff then 0 else m.data2) ∧
    (∀ (self : TwoByteRangeMIDIMatcher) (m : ChannelMessageMatcher),
      (self.run m).matched = true →
      (self.run m).value =
        if m.type = MIDIMessageType.NoteOff then 0 else m.data2) ∧
    (∀ (self : BankableTwoByteMIDIMatcher) (m : ChannelMessageMatcher),
      (self.run m).matched = true →
      (self.run m).value =
        if m.type = MIDIMessageType.NoteOff then 0 else m.data2) ∧
    (∀ (self : BankableTwoByteRangeMIDIMatcher) (m : ChannelMessageMatcher),
      (self.run m).matched = true →
      (self.run m).value =
        if m.type = MIDIMessageType.NoteOff then 0 else m.data2) := by
  refine ⟨?_, ?_, ?_, ?_⟩
  · intro self m hr
    by_cases hc : MIDIAddress.matchSingle m.getAddress self.address = true
    · simp [TwoByteMIDIMatcher.run, hc]
    · rw [Bool.not_eq_true] at hc
      simp [TwoByteMIDIMatcher.run, hc] at hr
  · intro self m hr
    by_cases hc : MIDIAddress.matchAddressInRange m.getAddress self.address
        self.length = true
    · simp [TwoByteRangeMIDIMatcher.run, hc]
    · rw [Bool.not_eq_true] at hc
      simp [TwoByteRangeMIDIMatcher.run, hc] at hr
  · intro self m hr
    by_cases hc : BankableMIDIMatcherHelpers.matchBankableAddress
        m.getAddress self.address self.config = true
    · simp [BankableTwoByteMIDIMatcher.run, hc]
    · rw [Bool.not_eq_true] at hc
      simp [BankableTwoByteMIDIMatcher.run, hc] at hr
  · intro self m hr
    by_cases hc : self.matchBankableAddressInRange m.getAddress
        self.address = true
    · simp [BankableTwoByteRangeMIDIMatcher.run, hc]
    · rw [Bool.not_eq_true] at hc
      simp [BankableTwoByteRangeMIDIMatcher.run, hc] at hr

/-- C6 witness: concrete matching messages for all four variants — a
note-off forced to 0 and non-note-off messages passing `data2` through. -/
theorem C6_witness :
    ((TwoByteMIDIMatcher.mk ⟨true, 5, 2, 1⟩).run
        ⟨MIDIMessageType.NoteOff, 5, 99, 2, 1⟩).value =
      (if MIDIMessageType.NoteOff = MIDIMessageType.NoteOff then (0 : Nat)
       else 99) ∧
    ((TwoByteRangeMIDIMatcher.mk ⟨true, 5, 2, 1⟩ 3).run
        ⟨MIDIMessageType.NoteOn, 6, 88, 2, 1⟩).value =
      (if MIDIMessageType.NoteOn = MIDIMessageType.NoteOff then (0 : Nat)
       else 88) ∧
    ((BankableTwoByteMIDIMatcher.mk cfgEx addr3).run
        ⟨MIDIMessageType.NoteOff, 7, 99, 0, 0⟩).value =
      (if MIDIMessageType.NoteOff = MIDIMessageType.NoteOff then (0 : Nat)
       else 99) ∧
    (matcherEx.run ⟨MIDIMessageType.ControlChange, 8, 42, 0, 0⟩).value =
      (if MIDIMessageType.ControlChange = MIDIMessageType.NoteOff
       then (0 : Nat) else 42) :=
  ⟨C6_noteoff_normalization.1 ⟨⟨true, 5, 2, 1⟩⟩
      ⟨MIDIMessageType.NoteOff, 5, 99, 2, 1⟩ (by decide),
    C6_noteoff_normalization.2.1 ⟨⟨true, 5, 2, 1⟩, 3⟩
      ⟨MIDIMessageType.NoteOn, 6, 88, 2, 1⟩ (by decide),
    C6_noteoff_normalization.2.2.1 ⟨cfgEx, addr3⟩
      ⟨MIDIMessageType.NoteOff, 7, 99, 0, 0⟩ (by decide),
    C6_noteoff_normalization.2.2.2 matcherEx
      ⟨MIDIMessageType.ControlChange, 8, 42, 0, 0⟩ (by decide)⟩

/-- C9: matching against an invalid address fails closed: the bankable
match predicates reject whenever either address is invalid, and a bankable
matcher configured with an invalid base address never reports a match. -/
theorem C9_invalid_fails_closed :
    (∀ (config : BaseBankConfig) (toMatch base : MIDIAddress),
      toMatch.valid = false ∨ base.valid = false →
      BankableMIDIMatcherHelpers.matchBankableAddress toMatch base config =
        false) ∧
    (∀ (self : BankableTwoByteRangeMIDIMatcher) (toMatch base : MIDIAddress),
      toMatch.valid = false ∨ base.valid = false →
      self.matchBankableAddressInRange toMatch base = false) ∧
    (∀ (self : BankableTwoByteMIDIMatcher) (m : ChannelMessageMatcher),
      self.address.valid = false → (self.run m).matched = false) ∧
    (∀ (self : BankableTwoByteRangeMIDIMatcher) (m : ChannelMessageMatcher),
      self.address.valid = false → (self.run m).matched = false) := by
  have p1 : ∀ (config : BaseBankConfig) (toMatch base : MIDIAddress),
      toMatch.valid = false ∨ base.valid = false →
      BankableMIDIMatcherHelpers.matchBankableAddress toMatch base config =
        false := by
    intro config toMatch base h
    rcases h with h | h <;>
      simp [BankableMIDIMatcherHelpers.matchBankableAddress,
        MIDIAddress.isValid, h]
  have p2 : ∀ (self : BankableTwoByteRangeMIDIMatcher)
      (toMatch base : MIDIAddress),
      toMatch.valid = false ∨ base.valid = false →
      self.matchBankableAddressInRange toMatch base = false := by
    intro self toMatch base h
    rcases h with h | h <;>
      simp [BankableTwoByteRangeMIDIMatcher.matchBankableAddressInRange,
        MIDIAddress.isValid, h]
  refine ⟨p1, p2, ?_, ?_⟩
  · intro self m h
    have hm := p1 self.config m.getAddress self.address (Or.inr h)
    simp [BankableTwoByteMIDIMatcher.run, hm]
  · intro self m h
    have hm := p2 self m.getAddress self.address (Or.inr h)
    simp [BankableTwoByteRangeMIDIMatcher.run, hm]

/-- C9 witness: the invalid sentinel address never matches. -/
theorem C9_witness :
    BankableMIDIMatcherHelpers.matchBankableAddress addrInvalid addr0
      cfgEx = false ∧
    ((BankableTwoByteMIDIMatcher.mk cfgEx addrInvalid).run
      ⟨MIDIMessageType.NoteOn, 0, 64, 0, 0⟩).matched = false :=
  ⟨C9_invalid_fails_closed.1 cfgEx addrInvalid addr0 (Or.inl rfl),
    C9_invalid_fails_closed.2.2.1 ⟨cfgEx, addrInvalid⟩
      ⟨MIDIMessageType.NoteOn, 0, 64, 0, 0⟩ rfl⟩

/-- A concrete bankable VU element: 2 banks (active bank 0), both slots
zeroed, dirty flag cleared, 150 ms decay timer. -/
def elemC1 : MCU.Bankable.NewVU :=
  ⟨cfgEx, addr3, [⟨0, false⟩, ⟨0, false⟩], false, ⟨150, 0⟩⟩

/-- C1 counterexample: a matched message for bank 1 (not the active bank 0)
carrying value 5 changes that slot, and `handleUpdate` *does* set the dirty
flag (the code gates only the timer restart on the active bank, not
`dirty = true`), contradicting the claim that dirty stays false. -/
theorem C1_counterexample :
    1 ≠ elemC1.getActiveBank ∧ elemC1.dirty = false ∧
    (elemC1.handleUpdate 1 5).dirty = true := by
  decide

/-- C1 (amended): a matched message whose bank index is not the active
bank updates that bank's slot and never restarts the decay timer, but it
sets the dirty flag exactly when the slot's state actually changed
(`dirty` stays as it was only for a no-change update). -/
theorem C1_amended (e : MCU.Bankable.NewVU) (bankIndex data : Nat)
    (h : bankIndex ≠ e.getActiveBank) :
    (e.handleUpdate bankIndex data).decayTimer = e.decayTimer ∧
    (e.handleUpdate bankIndex data).states =
      e.states.set bankIndex
        ((e.states.getD bankIndex default).update data).2 ∧
    (e.handleUpdate bankIndex data).dirty =
      (e.dirty ||
        decide (((e.states.getD bankIndex default).update data).1 ≠
          MCU.Changed.NothingChanged)) := by
  simp only [MCU.Bankable.NewVU.handleUpdate]
  by_cases hch : ((e.states.getD bankIndex default).update data).1 =
      MCU.Changed.NothingChanged
  · rw [if_neg (not_not_intro hch)]
    refine ⟨rfl, rfl, ?_⟩
    rw [decide_eq_false (not_not_intro hch), Bool.or_false]
  · rw [if_pos hch]
    refine ⟨?_, rfl, ?_⟩
    · show (if _ ∧ bankIndex = e.getActiveBank then
          e.decayTimer.beginNextPeriod else e.decayTimer) = e.decayTimer
      rw [if_neg]
      rintro ⟨-, hc⟩
      exact h hc
    · show true = _
      rw [decide_eq_true hch, Bool.or_true]

/-- C1 witness: the amended statement evaluated on the concrete element for
a message addressed to the non-active bank 1. -/
theorem C1_witness :
    (elemC1.handleUpdate 1 5).decayTimer = elemC1.decayTimer ∧
    (elemC1.handleUpdate 1 5).states =
      elemC1.states.set 1 ((elemC1.states.getD 1 default).update 5).2 ∧
    (elemC1.handleUpdate 1 5).dirty =
      (elemC1.dirty ||
        decide (((elemC1.states.getD 1 default).update 5).1 ≠
          MCU.Changed.NothingChanged)) :=
  C1_amended elemC1 1 5 (by decide)

/-- C7: with the decay interval configured as `0` (`VUDecay::Hold`), any
sequence of tick-driven `update()` calls — whatever the timer oracle
answers — leaves the element (its VU state(s), dirty flag, and timer)
completely unchanged, for both the non-bankable and bankable elements. -/
theorem C7_hold_never_decays :
    (∀ (e : MCU.NewVU) (fs : List Bool),
      e.decayTimer.interval = 0 → MCU.NewVU.ticks e fs = e) ∧
    (∀ (e : MCU.Bankable.NewVU) (fs : List Bool),
      e.decayTimer.interval = 0 → MCU.Bankable.NewVU.ticks e fs = e) := by
  have s1 : ∀ (e : MCU.NewVU) (f : Bool), e.decayTimer.interval = 0 →
      MCU.NewVU.update e f = e := by
    intro e f h
    unfold MCU.NewVU.update
    rw [if_neg]
    rintro ⟨hc, -⟩
    exact hc h
  have s2 : ∀ (e : MCU.Bankable.NewVU) (f : Bool),
      e.decayTimer.interval = 0 → MCU.Bankable.NewVU.update e f = e := by
    intro e f h
    unfold MCU.Bankable.NewVU.update
    rw [if_neg]
    rintro ⟨hc, -⟩
    exact hc h
  constructor
  · intro e fs h
    induction fs with
    | nil => rfl
    | cons f fs ih =>
      show MCU.NewVU.ticks (MCU.NewVU.update e f) fs = e
      rw [s1 e f h]
      exact ih
  · intro e fs h
    induction fs with
    | nil => rfl
    | cons f fs ih =>
      show MCU.Bankable.NewVU.ticks (MCU.Bankable.NewVU.update e f) fs = e
      rw [s2 e f h]
      exact ih

/-- A concrete non-bankable VU element with decay interval 0 (Hold) and a
non-zero state. -/
def elemHold : MCU.NewVU := ⟨addr3, ⟨7, true⟩, false, ⟨0, 0⟩⟩

/-- A concrete bankable VU element with decay interval 0 (Hold) and
non-zero slots. -/
def elemHoldB : MCU.Bankable.NewVU :=
  ⟨cfgEx, addr3, [⟨7, true⟩, ⟨3, false⟩], false, ⟨0, 0⟩⟩

/-- C7 witness: three ticks (with the timer oracle even claiming to have
fired) change nothing on Hold-configured elements. -/
theorem C7_witness :
    MCU.NewVU.ticks elemHold [true, false, true] = elemHold ∧
    MCU.Bankable.NewVU.ticks elemHoldB [true, false, true] = elemHoldB :=
  ⟨C7_hold_never_decays.1 elemHold [true, false, true] rfl,
    C7_hold_never_decays.2 elemHoldB [true, false, true] rfl⟩

/-- C10: the non-bankable `reset()` zeroes the VU state and leaves the
dirty flag (and timer) untouched; the bankable `reset()` zeroes every bank
slot and forces the dirty flag to true. -/
theorem C10_reset :
    (∀ e : MCU.NewVU, (e.reset).state = ⟨0, false⟩ ∧
      (e.reset).dirty = e.dirty ∧ (e.reset).decayTimer = e.decayTimer) ∧
    (∀ e : MCU.Bankable.NewVU,
      (e.reset).states = List.replicate e.states.length ⟨0, false⟩ ∧
      (e.reset).dirty = true) :=
  ⟨fun _ => ⟨rfl, rfl, rfl⟩, fun _ => ⟨rfl, rfl⟩⟩

end CS
